import Mathlib

/-!
# SistemaMETIS: route estimation and route state of `static/js/script.js`

A shallow embedding of the client script.  JavaScript numbers are modelled as
real numbers: `+`, `-`, `*`, `/` are the exact field operations and
`Math.sin`, `Math.cos`, `Math.sqrt`, `Math.atan2`, `Math.PI` are the
mathematical functions they approximate.  Rounding of IEEE-754 doubles is not
part of the model.
-/

namespace SistemaMETIS

/-! ## Constants (script.js, lines 14-18) -/

/-- `const EARTH_RADIUS_KM = 6371`. -/
def EARTH_RADIUS_KM : ℝ := 6371

/-- `const MAN_TGM_AVG_SPEED_KMH = 60`. -/
def MAN_TGM_AVG_SPEED_KMH : ℝ := 60

/-- `const MAN_TGM_FUEL_CONSUMPTION_L_PER_100KM = 30`. -/
def MAN_TGM_FUEL_CONSUMPTION_L_PER_100KM : ℝ := 30

/-! ## `Math` and `Number.prototype.toFixed` -/

/-- `Math.atan2(y, x)`: the angle in `(-π, π]` of the point `(x, y)`. -/
noncomputable def atan2 (y x : ℝ) : ℝ := Complex.arg ⟨x, y⟩

/-- `x.toFixed(0)`, read as the number its result string denotes: the sign is
split off, a magnitude of at least `10^21` is printed as it is, and otherwise
the integer `n` with `n - x` closest to zero is taken, the larger one on a
tie. -/
noncomputable def toFixed0 (x : ℝ) : ℝ :=
  if x < 0 then
    (if (10 : ℝ) ^ 21 ≤ -x then x else -((⌊-x + 1 / 2⌋ : ℤ) : ℝ))
  else
    (if (10 : ℝ) ^ 21 ≤ x then x else ((⌊x + 1 / 2⌋ : ℤ) : ℝ))

/-! ## DistanceEstimator (script.js, lines 87-96 and 138-143) -/

/-- The intermediate value `a` of `haversineDistance`. -/
noncomputable def haversineA (lat1 lon1 lat2 lon2 : ℝ) : ℝ :=
  let dLat := (lat2 - lat1) * Real.pi / 180
  let dLon := (lon2 - lon1) * Real.pi / 180
  Real.sin (dLat / 2) * Real.sin (dLat / 2) +
    Real.cos (lat1 * Real.pi / 180) * Real.cos (lat2 * Real.pi / 180) *
      Real.sin (dLon / 2) * Real.sin (dLon / 2)

/-- `function haversineDistance(lat1, lon1, lat2, lon2)`. -/
noncomputable def haversineDistance (lat1 lon1 lat2 lon2 : ℝ) : ℝ :=
  let a := haversineA lat1 lon1 lat2 lon2
  let c := 2 * atan2 (Real.sqrt a) (Real.sqrt (1 - a))
  let distance := EARTH_RADIUS_KM * c
  distance

/-- `segmentTimeHours` of `drawRoute`. -/
noncomputable def segmentTimeHours (segmentDistanceKm : ℝ) : ℝ :=
  segmentDistanceKm / MAN_TGM_AVG_SPEED_KMH

/-- `segmentTimeMinutes` of `drawRoute`: `(segmentTimeHours * 60).toFixed(0)`. -/
noncomputable def segmentTimeMinutes (segmentDistanceKm : ℝ) : ℝ :=
  toFixed0 (segmentTimeHours segmentDistanceKm * 60)

/-- `segmentFuelLiters` of `drawRoute`. -/
noncomputable def segmentFuelLiters (segmentDistanceKm : ℝ) : ℝ :=
  (segmentDistanceKm / 100) * MAN_TGM_FUEL_CONSUMPTION_L_PER_100KM

/-- The waypoint domain of the data model: latitude in `[-90, 90]`, longitude
in `[-180, 180]`. -/
def inDomain (lat lng : ℝ) : Prop :=
  -90 ≤ lat ∧ lat ≤ 90 ∧ -180 ≤ lng ∧ lng ≤ 180

/-! ## Page state (script.js, lines 8-11) -/

/-- A coordinate object `{ lat, lng }`. -/
structure Coord where
  lat : ℝ
  lng : ℝ

/-- One `.coordinate-input-group` of `#coordinate-inputs`: the values of its
latitude and longitude number inputs.  A number input holds either the empty
string (empty or non-numeric field), which `parseFloat` reads as `NaN` and is
`none` here, or a numeric literal, which `parseFloat` reads as that number. -/
structure InputGroup where
  latValue : Option ℝ
  lngValue : Option ℝ

/-- The estimate a marker popup shows for the segment to the next point. -/
structure SegmentEstimate where
  distanceKm : ℝ
  timeMinutes : ℝ
  fuelLiters : ℝ

/-- A numbered marker with the content of its popup; `next` is `none` for the
last point of the route. -/
structure Marker where
  number : ℕ
  lat : ℝ
  lng : ℝ
  next : Option SegmentEstimate

/-- The text and colouring of `#message-area`. -/
structure Message where
  text : String
  isError : Bool

/-- The module-level state `markers`, `polyline`, and the two DOM elements the
script writes to. -/
structure Page where
  markers : List Marker
  polyline : Option (List Coord)
  inputs : List InputGroup
  messageArea : Option Message

/-! ## Requests and responses of `fetch` -/

/-- The requests the script sends. -/
inductive Request where
  | postCoordinatesBatch (body : List Coord)
  | postRouteOptimize
  | getCoordinates
  | postDataLoad
  | deleteCoordinates

/-- A parsed response body: an array of coordinate objects, or an object with
optional `message` and `detail` fields. -/
inductive Json where
  | array (coords : List Coord)
  | object (message : Option String) (detail : Option String)

/-- What `await fetch(...)` followed by `await response.json()` yields: the
request is rejected with an error message, or a response arrives with its
`ok` flag and a body that parses to a value or makes `json()` reject. -/
inductive FetchOutcome where
  | rejected (reason : String)
  | response (ok : Bool) (json : Except String Json)

/-- The field `result.message`. -/
def Json.message : Json → Option String
  | .array _ => none
  | .object message _ => message

/-- The field `result.detail`. -/
def Json.detail : Json → Option String
  | .array _ => none
  | .object _ detail => detail

/-- The expression `result.detail || fallback`. -/
def detailOr (result : Json) (fallback : String) : String :=
  match result.detail with
  | some d => if d = "" then fallback else d
  | none => fallback

/-- The common prefix of every `try` block: `await fetch(...)`,
`await response.json()` and `if (!response.ok) throw new Error(...)`.  The
result is the parsed body, or the message of the error that reaches `catch`. -/
def awaitResult (outcome : FetchOutcome) (fallback : String) : Except String Json :=
  match outcome with
  | .rejected reason => .error reason
  | .response _ (.error reason) => .error reason
  | .response ok (.ok result) => if ok then .ok result else .error (detailOr result fallback)

/-! ## Utility functions (script.js, lines 23-83) -/

/-- `function showMessage(message, isError)`; the timer that empties the
message area after five seconds is not part of the state. -/
def showMessage (message : String) (isError : Bool) (p : Page) : Page :=
  { p with messageArea := some ⟨message, isError⟩ }

/-- `function addCoordinateInput(lat, lng)`: appends one input group. -/
def addCoordinateInput (lat lng : Option ℝ) (p : Page) : Page :=
  { p with inputs := p.inputs ++ [⟨lat, lng⟩] }

/-- The body of the `forEach` in `getCoordinatesFromInputs`. -/
def readGroup (group : InputGroup) : Option Coord :=
  match group.latValue, group.lngValue with
  | some lat, some lng => some ⟨lat, lng⟩
  | _, _ => none

/-- `function getCoordinatesFromInputs()`. -/
def getCoordinatesFromInputs (p : Page) : List Coord :=
  p.inputs.filterMap readGroup

/-- `function updateInputsWithCoordinates(coords)`.  The container is emptied
first; a value without `forEach` then raises a `TypeError`, returned as the
second component together with the page at that moment. -/
def updateInputsWithCoordinates (coords : Json) (p : Page) : Page × Option String :=
  let p := { p with inputs := [] }
  match coords with
  | .array cs =>
      let p := cs.foldl (fun p coord => addCoordinateInput (some coord.lat) (some coord.lng) p) p
      (if cs.length = 0 then addCoordinateInput none none p else p, none)
  | .object _ _ => (p, some "coords.forEach is not a function")

/-! ## `drawRoute` (script.js, lines 99-185) -/

/-- The loop of `drawRoute` from index `i` on: one marker per coordinate, with
the estimate of the segment to the next coordinate when there is one. -/
noncomputable def drawMarkers : ℕ → List Coord → List Marker
  | _, [] => []
  | i, [currentCoord] => [⟨i + 1, currentCoord.lat, currentCoord.lng, none⟩]
  | i, currentCoord :: nextCoord :: rest =>
      let segmentDistanceKm :=
        haversineDistance currentCoord.lat currentCoord.lng nextCoord.lat nextCoord.lng
      ⟨i + 1, currentCoord.lat, currentCoord.lng,
        some ⟨segmentDistanceKm, segmentTimeMinutes segmentDistanceKm,
          segmentFuelLiters segmentDistanceKm⟩⟩ :: drawMarkers (i + 1) (nextCoord :: rest)

/-- `async function drawRoute()`, given the outcome of its batch request.
Returns the page and the requests sent. -/
noncomputable def drawRoute (batchOutcome : FetchOutcome) (p : Page) : Page × List Request :=
  let p := { p with markers := [], polyline := none }
  let coords := getCoordinatesFromInputs p
  if coords.length = 0 then
    (showMessage "No hay coordenadas para trazar." true p, [])
  else
    let p := { p with
      markers := drawMarkers 0 coords
      polyline := if coords.length > 1 then some coords else none }
    let p :=
      match awaitResult batchOutcome "Error al actualizar coordenadas en el backend." with
      | .ok result => showMessage (result.message.getD "") false p
      | .error message => showMessage ("Error: " ++ message) true p
    (p, [Request.postCoordinatesBatch coords])

/-! ## Button handlers (script.js, lines 197-276) -/

/-- The body shared by the `optimize-route-btn` and `load-route-btn` handlers,
which differ in the request sent first and in their texts. -/
noncomputable def triggerAndReload (trigger : Request) (startText fallback : String)
    (triggerOutcome getOutcome batchOutcome : FetchOutcome) (p : Page) : Page × List Request :=
  let p := showMessage startText false p
  match awaitResult triggerOutcome fallback with
  | .error message => (showMessage ("Error: " ++ message) true p, [trigger])
  | .ok result =>
      let p := showMessage (result.message.getD "") false p
      match getOutcome with
      | .rejected reason =>
          (showMessage ("Error: " ++ reason) true p, [trigger, Request.getCoordinates])
      | .response _ (.error reason) =>
          (showMessage ("Error: " ++ reason) true p, [trigger, Request.getCoordinates])
      | .response _ (.ok coords) =>
          match updateInputsWithCoordinates coords p with
          | (p, some message) =>
              (showMessage ("Error: " ++ message) true p, [trigger, Request.getCoordinates])
          | (p, none) =>
              let drawn := drawRoute batchOutcome p
              (drawn.1, [trigger, Request.getCoordinates] ++ drawn.2)

/-- The click handler of `optimize-route-btn`. -/
noncomputable def optimizeRouteBtnClick
    (optimizeOutcome getOutcome batchOutcome : FetchOutcome) (p : Page) : Page × List Request :=
  triggerAndReload Request.postRouteOptimize "Optimizando ruta con algoritmo 2-opt..."
    "Error al optimizar la ruta." optimizeOutcome getOutcome batchOutcome p

/-- The click handler of `load-route-btn`. -/
noncomputable def loadRouteBtnClick
    (loadOutcome getOutcome batchOutcome : FetchOutcome) (p : Page) : Page × List Request :=
  triggerAndReload Request.postDataLoad "Cargando ruta de la base de datos..."
    "Error al cargar la ruta." loadOutcome getOutcome batchOutcome p

/-- The click handler of `clear-map-btn`. -/
def clearMapBtnClick (deleteOutcome : FetchOutcome) (p : Page) : Page × List Request :=
  let p := { p with markers := [], polyline := none }
  let p := { p with inputs := [] }
  let p := addCoordinateInput none none p
  let p := addCoordinateInput none none p
  let p :=
    match awaitResult deleteOutcome "Error al limpiar coordenadas en el backend." with
    | .ok result => showMessage (result.message.getD "") false p
    | .error message => showMessage ("Error: " ++ message) true p
  (p, [Request.deleteCoordinates])

/-! ## RouteOptimizer and persistence collaborator

The 2-opt optimizer and the coordinate store run behind the requests of
script.js and are not part of the sources; they follow sections 4.2 and 4.4
of the specification. -/

/-- Modelled from the spec: the total cost of a route, "sum of `distance` over
all consecutive segments" (the backend optimizer is missing from the
sources). -/
noncomputable def totalDistance : List Coord → ℝ
  | [] => 0
  | [_] => 0
  | a :: b :: rest => haversineDistance a.lat a.lng b.lat b.lng + totalDistance (b :: rest)

/-- Modelled from the spec: the 2-opt move on the edges `(i, i+1)` and
`(j, j+1)` of the missing backend optimizer, reversing the positions `i+1`
to `j` inclusive. -/
def twoOptSwap (route : List Coord) (i j : ℕ) : List Coord :=
  route.take (i + 1) ++ ((route.drop (i + 1)).take (j - i)).reverse ++ route.drop (j + 1)

/-- Modelled from the spec: the pairs of edges `(i, i+1)` and `(j, j+1)` with
`i + 1 < j` that one scan of the missing backend optimizer visits, in
increasing `(i, j)` order. -/
def scanPairs (n : ℕ) : List (ℕ × ℕ) :=
  (List.range n).flatMap fun i =>
    ((List.range n).filter fun j => decide (i + 1 < j ∧ j + 1 < n)).map fun j => (i, j)

/-- Modelled from the spec: one scan of the missing backend optimizer, "apply
the swap when it yields a strictly lower total cost", first improving swap in
increasing `(i, j)` order. -/
noncomputable def firstImprovingSwap (route : List Coord) : Option (List Coord) :=
  (scanPairs route.length).findSome? fun ij =>
    if totalDistance (twoOptSwap route ij.1 ij.2) < totalDistance route then
      some (twoOptSwap route ij.1 ij.2)
    else none

/-- Modelled from the spec: the scan of the missing backend optimizer is
restarted after each applied swap and stops at a local optimum or when the
pass cap is hit. -/
noncomputable def twoOptPasses : ℕ → List Coord → List Coord
  | 0, route => route
  | passCap + 1, route =>
      match firstImprovingSwap route with
      | none => route
      | some improved => twoOptPasses passCap improved

/-- Modelled from the spec: `optimize(route)` of the missing backend
optimizer; routes of length 0, 1 and 2 are returned unchanged. -/
noncomputable def optimize (passCap : ℕ) (route : List Coord) : List Coord :=
  if route.length ≤ 2 then route else twoOptPasses passCap route

/-- Modelled from the spec: the persistence collaborator behind the requests
(missing from the sources), reduced to its stored copy of the route. -/
structure Backend where
  stored : List Coord

/-- Modelled from the spec: `replace_all(route)` of the missing collaborator,
a wholesale overwrite. -/
def Backend.replaceAll (_b : Backend) (route : List Coord) : Backend := ⟨route⟩

/-- Modelled from the spec: `fetch_all()` of the missing collaborator. -/
def Backend.fetchAll (b : Backend) : List Coord := b.stored

/-- Modelled from the spec: `trigger_remote_optimize()` of the missing
collaborator, which "run[s] 2-opt on its stored copy". -/
noncomputable def Backend.triggerRemoteOptimize (passCap : ℕ) (b : Backend) : Backend :=
  ⟨optimize passCap b.stored⟩

/-- Modelled from the spec: the acknowledgement `{message}` of the missing
collaborator; its text is not specified. -/
def acknowledgement : FetchOutcome :=
  .response true (.ok (.object (some "ok") none))

/-- Modelled from the spec: the optimize action of the page run against the
missing collaborator when every call succeeds: the trigger optimizes the
stored copy, the follow-up fetch returns it, and the batch request of
`drawRoute` overwrites it. -/
noncomputable def optimizeAction (passCap : ℕ) (b : Backend) (p : Page) : Page × Backend :=
  let b := b.triggerRemoteOptimize passCap
  let done := optimizeRouteBtnClick acknowledgement
    (.response true (.ok (.array b.fetchAll))) acknowledgement p
  (done.1, done.2.foldl (fun b request =>
    match request with
    | .postCoordinatesBatch body => b.replaceAll body
    | _ => b) b)

/-! ## Lemmas on the estimator -/

theorem toFixed0_zero : toFixed0 0 = 0 := by
  simp [toFixed0]
  norm_num

theorem atan2_zero_one : atan2 0 1 = 0 := by
  have : (⟨1, 0⟩ : ℂ) = 1 := rfl
  simp [atan2, this]

theorem haversineA_comm (lat1 lon1 lat2 lon2 : ℝ) :
    haversineA lat1 lon1 lat2 lon2 = haversineA lat2 lon2 lat1 lon1 := by
  unfold haversineA
  have h1 : (lat1 - lat2) * Real.pi / 180 / 2 = -((lat2 - lat1) * Real.pi / 180 / 2) := by ring
  have h2 : (lon1 - lon2) * Real.pi / 180 / 2 = -((lon2 - lon1) * Real.pi / 180 / 2) := by ring
  simp only [h1, h2, Real.sin_neg]
  ring

theorem haversineA_self (lat lng : ℝ) : haversineA lat lng lat lng = 0 := by
  simp [haversineA]

theorem haversineDistance_self (lat lng : ℝ) : haversineDistance lat lng lat lng = 0 := by
  simp [haversineDistance, haversineA_self, atan2_zero_one]

/-! ## The estimator: symmetry, coincident points, fuel -/

/-- C1: `haversineDistance` is symmetric in its two points, for all latitudes
and longitudes. -/
theorem haversineDistance_symmetric (lat1 lon1 lat2 lon2 : ℝ) :
    haversineDistance lat1 lon1 lat2 lon2 = haversineDistance lat2 lon2 lat1 lon1 := by
  unfold haversineDistance
  rw [haversineA_comm]

/-- C2: the segment from a waypoint to itself has distance 0, fuel 0 and
displayed time 0; in particular for the coincident points `(0,0), (0,0)`. -/
theorem coincident_segment_zero (lat lng : ℝ) :
    haversineDistance lat lng lat lng = 0 ∧
    segmentFuelLiters (haversineDistance lat lng lat lng) = 0 ∧
    segmentTimeMinutes (haversineDistance lat lng lat lng) = 0 ∧
    haversineDistance 0 0 0 0 = 0 := by
  refine ⟨haversineDistance_self lat lng, ?_, ?_, haversineDistance_self 0 0⟩
  · simp [haversineDistance_self, segmentFuelLiters]
  · simp [haversineDistance_self, segmentTimeMinutes, segmentTimeHours, toFixed0_zero]

/-- The identity behind the bounds on `a`. -/
theorem sin_sq_half_diff_add (p q : ℝ) :
    Real.sin ((q - p) / 2) * Real.sin ((q - p) / 2) + Real.cos p * Real.cos q
      = Real.cos ((p + q) / 2) * Real.cos ((p + q) / 2) := by
  have hp : p = (p + q) / 2 - (q - p) / 2 := by ring
  have hq : q = (p + q) / 2 + (q - p) / 2 := by ring
  have e1 : Real.cos p = Real.cos ((p + q) / 2 - (q - p) / 2) := by rw [← hp]
  have e2 : Real.cos q = Real.cos ((p + q) / 2 + (q - p) / 2) := by rw [← hq]
  rw [e1, e2, Real.cos_sub, Real.cos_add]
  have s1 := Real.sin_sq_add_cos_sq ((p + q) / 2)
  have s2 := Real.sin_sq_add_cos_sq ((q - p) / 2)
  nlinarith [s1, s2]

theorem haversineA_bounds (lat1 lon1 lat2 lon2 : ℝ) :
    0 ≤ haversineA lat1 lon1 lat2 lon2 ∧ haversineA lat1 lon1 lat2 lon2 ≤ 1 := by
  unfold haversineA
  simp only []
  have e : (lat2 - lat1) * Real.pi / 180 / 2
      = (lat2 * Real.pi / 180 - lat1 * Real.pi / 180) / 2 := by ring
  rw [e]
  set p := lat1 * Real.pi / 180
  set q := lat2 * Real.pi / 180
  set y := (lon2 - lon1) * Real.pi / 180 / 2
  have hid := sin_sq_half_diff_add p q
  have hs := Real.sin_sq_add_cos_sq y
  have hu := Real.sin_sq_add_cos_sq ((q - p) / 2)
  have hv := Real.sin_sq_add_cos_sq ((p + q) / 2)
  have hA0 := mul_self_nonneg (Real.sin ((q - p) / 2))
  have hB0 := mul_self_nonneg (Real.cos ((p + q) / 2))
  have hS0 := mul_self_nonneg (Real.sin y)
  have hC0 := mul_self_nonneg (Real.cos y)
  have hA1 := mul_self_nonneg (Real.cos ((q - p) / 2))
  have hB1 := mul_self_nonneg (Real.sin ((p + q) / 2))
  constructor <;> nlinarith

theorem haversineDistance_eq_zero_iff_a (lat1 lon1 lat2 lon2 : ℝ) :
    haversineDistance lat1 lon1 lat2 lon2 = 0 ↔ haversineA lat1 lon1 lat2 lon2 = 0 := by
  have hb := haversineA_bounds lat1 lon1 lat2 lon2
  unfold haversineDistance atan2 EARTH_RADIUS_KM
  simp only []
  constructor
  · intro h
    have h2 : Complex.arg ⟨Real.sqrt (1 - haversineA lat1 lon1 lat2 lon2),
        Real.sqrt (haversineA lat1 lon1 lat2 lon2)⟩ = 0 := by
      rcases mul_eq_zero.mp h with h | h
      · norm_num at h
      · rcases mul_eq_zero.mp h with h | h
        · norm_num at h
        · exact h
    have h3 := (Complex.arg_eq_zero_iff.mp h2).2
    simp only [] at h3
    have h4 := Real.sqrt_eq_zero'.mp h3
    linarith [hb.1]
  · intro h
    rw [h]
    have : (⟨Real.sqrt (1 - 0), Real.sqrt 0⟩ : ℂ) = 1 := by
      apply Complex.ext <;> simp
    rw [this]
    simp

theorem haversineDistance_bounds (lat1 lon1 lat2 lon2 : ℝ) :
    0 ≤ haversineDistance lat1 lon1 lat2 lon2 ∧
    haversineDistance lat1 lon1 lat2 lon2 ≤ 6371 * Real.pi := by
  unfold haversineDistance atan2 EARTH_RADIUS_KM
  simp only []
  set z : ℂ := ⟨Real.sqrt (1 - haversineA lat1 lon1 lat2 lon2),
    Real.sqrt (haversineA lat1 lon1 lat2 lon2)⟩ with hz
  have h0 : 0 ≤ Complex.arg z := Complex.arg_nonneg_iff.mpr (Real.sqrt_nonneg _)
  have h1 : |Complex.arg z| ≤ Real.pi / 2 :=
    Complex.abs_arg_le_pi_div_two_iff.mpr (Real.sqrt_nonneg _)
  have h2 := (abs_le.mp h1).2
  constructor
  · positivity
  · nlinarith

theorem haversine_core_eq_zero_iff (p q y : ℝ)
    (hp1 : -(Real.pi / 2) ≤ p) (hp2 : p ≤ Real.pi / 2)
    (hq1 : -(Real.pi / 2) ≤ q) (hq2 : q ≤ Real.pi / 2)
    (hy1 : -Real.pi ≤ y) (hy2 : y ≤ Real.pi) :
    Real.sin ((q - p) / 2) * Real.sin ((q - p) / 2) +
        Real.cos p * Real.cos q * Real.sin y * Real.sin y = 0 ↔
      p = q ∧ (y = 0 ∨ p = Real.pi / 2 ∨ p = -(Real.pi / 2) ∨ y = Real.pi ∨ y = -Real.pi) := by
  have hpi := Real.pi_pos
  constructor
  · intro h
    have hcp : 0 ≤ Real.cos p := Real.cos_nonneg_of_mem_Icc ⟨hp1, hp2⟩
    have hcq : 0 ≤ Real.cos q := Real.cos_nonneg_of_mem_Icc ⟨hq1, hq2⟩
    have hsx := mul_self_nonneg (Real.sin ((q - p) / 2))
    have hsy := mul_self_nonneg (Real.sin y)
    have hterm : 0 ≤ Real.cos p * Real.cos q * (Real.sin y * Real.sin y) :=
      mul_nonneg (mul_nonneg hcp hcq) hsy
    have hA : Real.sin ((q - p) / 2) * Real.sin ((q - p) / 2) = 0 := by linarith
    have hB : Real.cos p * Real.cos q * (Real.sin y * Real.sin y) = 0 := by linarith
    have hsx0 : Real.sin ((q - p) / 2) = 0 := mul_self_eq_zero.mp hA
    have hx0 : (q - p) / 2 = 0 :=
      (Real.sin_eq_zero_iff_of_lt_of_lt (by linarith) (by linarith)).mp hsx0
    have hpq : p = q := by linarith
    subst hpq
    refine ⟨rfl, ?_⟩
    by_cases hc : Real.cos p = 0
    · by_cases hlo : p = -(Real.pi / 2)
      · exact Or.inr (Or.inr (Or.inl hlo))
      · by_cases hhi : p = Real.pi / 2
        · exact Or.inr (Or.inl hhi)
        · have hin : p ∈ Set.Ioo (-(Real.pi / 2)) (Real.pi / 2) :=
            ⟨lt_of_le_of_ne hp1 (Ne.symm hlo), lt_of_le_of_ne hp2 hhi⟩
          exact absurd hc (ne_of_gt (Real.cos_pos_of_mem_Ioo hin))
    · have hsy0 : Real.sin y = 0 := by
        rcases mul_eq_zero.mp hB with h | h
        · exact absurd (mul_self_eq_zero.mp h) hc
        · exact mul_self_eq_zero.mp h
      by_cases hylo : y = -Real.pi
      · exact Or.inr (Or.inr (Or.inr (Or.inr hylo)))
      · by_cases hyhi : y = Real.pi
        · exact Or.inr (Or.inr (Or.inr (Or.inl hyhi)))
        · exact Or.inl ((Real.sin_eq_zero_iff_of_lt_of_lt (lt_of_le_of_ne hy1 (Ne.symm hylo))
            (lt_of_le_of_ne hy2 hyhi)).mp hsy0)
  · rintro ⟨rfl, hcases⟩
    rcases hcases with h | h | h | h | h <;> simp [h]

theorem mul_pi_cancel (u v : ℝ) (h : u * Real.pi = v * Real.pi) : u = v :=
  mul_right_cancel₀ (ne_of_gt Real.pi_pos) h

theorem haversineA_eq_zero_iff (lat1 lon1 lat2 lon2 : ℝ)
    (h1 : inDomain lat1 lon1) (h2 : inDomain lat2 lon2) :
    haversineA lat1 lon1 lat2 lon2 = 0 ↔
      lat1 = lat2 ∧ (lon1 = lon2 ∨ lat1 = 90 ∨ lat1 = -90 ∨
        (lon1 = -180 ∧ lon2 = 180) ∨ (lon1 = 180 ∧ lon2 = -180)) := by
  obtain ⟨a1, a2, a3, a4⟩ := h1
  obtain ⟨b1, b2, b3, b4⟩ := h2
  have hpi := Real.pi_pos
  have e : haversineA lat1 lon1 lat2 lon2 =
      Real.sin ((lat2 * Real.pi / 180 - lat1 * Real.pi / 180) / 2) *
        Real.sin ((lat2 * Real.pi / 180 - lat1 * Real.pi / 180) / 2) +
      Real.cos (lat1 * Real.pi / 180) * Real.cos (lat2 * Real.pi / 180) *
        Real.sin ((lon2 - lon1) * Real.pi / 180 / 2) *
        Real.sin ((lon2 - lon1) * Real.pi / 180 / 2) := by
    unfold haversineA
    have : (lat2 - lat1) * Real.pi / 180 / 2
        = (lat2 * Real.pi / 180 - lat1 * Real.pi / 180) / 2 := by ring
    simp only [this]
  have m1 := mul_nonneg (by linarith : (0 : ℝ) ≤ lat1 + 90) hpi.le
  have m2 := mul_nonneg (by linarith : (0 : ℝ) ≤ 90 - lat1) hpi.le
  have m3 := mul_nonneg (by linarith : (0 : ℝ) ≤ lat2 + 90) hpi.le
  have m4 := mul_nonneg (by linarith : (0 : ℝ) ≤ 90 - lat2) hpi.le
  have m5 := mul_nonneg (by linarith : (0 : ℝ) ≤ lon2 - lon1 + 360) hpi.le
  have m6 := mul_nonneg (by linarith : (0 : ℝ) ≤ 360 - (lon2 - lon1)) hpi.le
  rw [e, haversine_core_eq_zero_iff _ _ _ (by linarith) (by linarith) (by linarith)
    (by linarith) (by linarith) (by linarith)]
  constructor
  · rintro ⟨hpq, hc⟩
    refine ⟨mul_pi_cancel _ _ (by linarith), ?_⟩
    rcases hc with h | h | h | h | h
    · exact Or.inl (mul_pi_cancel _ _ (by linarith)).symm
    · exact Or.inr (Or.inl (mul_pi_cancel _ _ (by linarith)))
    · exact Or.inr (Or.inr (Or.inl (mul_pi_cancel _ _ (by linarith))))
    · have : lon2 - lon1 = 360 := mul_pi_cancel _ _ (by linarith)
      exact Or.inr (Or.inr (Or.inr (Or.inl ⟨by linarith, by linarith⟩)))
    · have : lon2 - lon1 = -360 := mul_pi_cancel _ _ (by linarith)
      exact Or.inr (Or.inr (Or.inr (Or.inr ⟨by linarith, by linarith⟩)))
  · rintro ⟨rfl, hc⟩
    refine ⟨rfl, ?_⟩
    rcases hc with h | h | h | ⟨h, h'⟩ | ⟨h, h'⟩
    · left; rw [h]; ring
    · right; left; rw [h]; ring
    · right; right; left; rw [h]; ring
    · right; right; right; left; rw [h, h']; ring
    · right; right; right; right; rw [h, h']; ring

theorem getCoordinatesFromInputs_showMessage (text : String) (isError : Bool) (p : Page) :
    getCoordinatesFromInputs (showMessage text isError p) = getCoordinatesFromInputs p := rfl

theorem drawRoute_inputs (batchOutcome : FetchOutcome) (p : Page) :
    (drawRoute batchOutcome p).1.inputs = p.inputs := by
  unfold drawRoute
  simp only []
  split_ifs
  · rfl
  · cases awaitResult batchOutcome "Error al actualizar coordenadas en el backend." <;> rfl
  · cases awaitResult batchOutcome "Error al actualizar coordenadas en el backend." <;> rfl

theorem getCoordinatesFromInputs_drawRoute (batchOutcome : FetchOutcome) (p : Page) :
    getCoordinatesFromInputs (drawRoute batchOutcome p).1 = getCoordinatesFromInputs p := by
  unfold getCoordinatesFromInputs
  rw [drawRoute_inputs]

theorem foldl_addCoordinateInput_inputs (cs : List Coord) (p : Page) :
    (cs.foldl (fun p coord => addCoordinateInput (some coord.lat) (some coord.lng) p) p).inputs
      = p.inputs ++ cs.map fun coord => ⟨some coord.lat, some coord.lng⟩ := by
  induction cs generalizing p with
  | nil => simp
  | cons c cs ih =>
    rw [List.foldl_cons, ih]
    simp [addCoordinateInput]

theorem filterMap_readGroup_map (cs : List Coord) :
    (cs.map fun coord => (⟨some coord.lat, some coord.lng⟩ : InputGroup)).filterMap readGroup
      = cs := by
  induction cs with
  | nil => rfl
  | cons c cs ih =>
    simp only [List.map_cons, List.filterMap_cons, readGroup, ih]

theorem updateInputsWithCoordinates_array (cs : List Coord) (p : Page) :
    (updateInputsWithCoordinates (.array cs) p).2 = none ∧
    getCoordinatesFromInputs (updateInputsWithCoordinates (.array cs) p).1 = cs := by
  unfold updateInputsWithCoordinates getCoordinatesFromInputs
  refine ⟨rfl, ?_⟩
  simp only []
  split_ifs with h
  · have : cs = [] := List.length_eq_zero.mp h
    subst this
    simp [addCoordinateInput, readGroup]
  · rw [foldl_addCoordinateInput_inputs]
    simp only [List.nil_append]
    exact filterMap_readGroup_map cs

theorem drawMarkers_length (coords : List Coord) (i : ℕ) :
    (drawMarkers i coords).length = coords.length := by
  induction coords generalizing i with
  | nil => rfl
  | cons c cs ih =>
    cases cs with
    | nil => rfl
    | cons d ds =>
      simp only [drawMarkers, List.length_cons]
      rw [ih (i + 1)]
      rfl

/-- The handlers keep the route of the inputs when the trigger fails, or when
the follow-up fetch is rejected or its body does not parse. -/
theorem triggerAndReload_keeps_route (trigger : Request) (startText fallback : String)
    (triggerOutcome getOutcome batchOutcome : FetchOutcome) (p : Page)
    (h : (∃ message, awaitResult triggerOutcome fallback = .error message) ∨
      (∃ reason, getOutcome = .rejected reason) ∨
      (∃ ok reason, getOutcome = .response ok (.error reason))) :
    getCoordinatesFromInputs
      (triggerAndReload trigger startText fallback triggerOutcome getOutcome batchOutcome p).1
      = getCoordinatesFromInputs p := by
  unfold triggerAndReload
  rcases h with ⟨message, h⟩ | ⟨reason, h⟩ | ⟨ok, reason, h⟩
  · rw [h]; rfl
  · subst h
    cases awaitResult triggerOutcome fallback <;> rfl
  · subst h
    cases awaitResult triggerOutcome fallback <;> rfl

/-! ## Lemmas on the optimizer -/

theorem totalDistance_nonneg (route : List Coord) : 0 ≤ totalDistance route := by
  induction route with
  | nil => exact le_refl _
  | cons a rest ih =>
    cases rest with
    | nil => exact le_refl _
    | cons b rest =>
      unfold totalDistance
      have := (haversineDistance_bounds a.lat a.lng b.lat b.lng).1
      linarith

theorem firstImprovingSwap_lt (route improved : List Coord)
    (h : firstImprovingSwap route = some improved) :
    totalDistance improved < totalDistance route := by
  unfold firstImprovingSwap at h
  obtain ⟨ij, _, hij⟩ := List.exists_of_findSome?_eq_some h
  split_ifs at hij with hlt
  cases hij
  exact hlt

theorem twoOptPasses_le (passCap : ℕ) (route : List Coord) :
    totalDistance (twoOptPasses passCap route) ≤ totalDistance route := by
  induction passCap generalizing route with
  | zero => exact le_refl _
  | succ n ih =>
    unfold twoOptPasses
    cases h : firstImprovingSwap route with
    | none => exact le_refl _
    | some improved =>
      exact le_trans (ih improved) (le_of_lt (firstImprovingSwap_lt route improved h))

theorem optimize_le (passCap : ℕ) (route : List Coord) :
    totalDistance (optimize passCap route) ≤ totalDistance route := by
  unfold optimize
  split_ifs
  · exact le_refl _
  · exact twoOptPasses_le passCap route

theorem optimize_short (passCap : ℕ) (route : List Coord) (h : route.length ≤ 2) :
    optimize passCap route = route := by
  unfold optimize
  rw [if_pos h]

theorem scanPairs_four : scanPairs 4 = [(0, 2)] := by decide

theorem twoOptSwap_uncrosses (a b c d : Coord) :
    twoOptSwap [a, b, c, d] 0 2 = [a, c, b, d] := rfl

theorem optimizeAction_route (passCap : ℕ) (b : Backend) (p : Page) :
    getCoordinatesFromInputs (optimizeAction passCap b p).1 = optimize passCap b.stored := by
  unfold optimizeAction optimizeRouteBtnClick triggerAndReload
  have hu := updateInputsWithCoordinates_array (optimize passCap b.stored)
    (showMessage ((Json.object (some "ok") none).message.getD "") false
      (showMessage "Optimizando ruta con algoritmo 2-opt..." false p))
  simp only [acknowledgement, awaitResult, if_true, Backend.fetchAll,
    Backend.triggerRemoteOptimize]
  generalize updateInputsWithCoordinates (Json.array (optimize passCap b.stored))
    (showMessage ((Json.object (some "ok") none).message.getD "") false
      (showMessage "Optimizando ruta con algoritmo 2-opt..." false p)) = u at hu
  obtain ⟨q, e⟩ := u
  obtain ⟨h1, h2⟩ := hu
  simp only [] at h1 h2
  subst h1
  simp only []
  rw [getCoordinatesFromInputs_drawRoute]
  exact h2

/-! ## The page: draw, optimize and clear actions -/

/-- C7 (failing input): with the route `(1,2), (3,4)` in the inputs, a
successful optimize trigger and a follow-up `GET /api/coordinates/` answered
by a non-OK response whose body is an object, the handler leaves the inputs
empty: the list read afterwards is `[]`. -/
theorem optimizeRouteBtnClick_failed_fetch_empties_inputs :
    getCoordinatesFromInputs
      ⟨[], none, [⟨some 1, some 2⟩, ⟨some 3, some 4⟩], none⟩ = [⟨1, 2⟩, ⟨3, 4⟩] ∧
    getCoordinatesFromInputs
      (optimizeRouteBtnClick (.response true (.ok (.object (some "ok") none)))
        (.response false (.ok (.object none (some "Internal Server Error"))))
        (.response true (.ok (.object (some "ok") none)))
        ⟨[], none, [⟨some 1, some 2⟩, ⟨some 3, some 4⟩], none⟩).1 = [] := by
  constructor
  · rfl
  · rfl

/-- C8: from any state and for every outcome of the request, the clear action
leaves `markers` empty, `polyline` null and no coordinate in the inputs, and
sends exactly one DELETE request to the coordinate store. -/
theorem clearMapBtnClick_clears (deleteOutcome : FetchOutcome) (p : Page) :
    (clearMapBtnClick deleteOutcome p).1.markers = [] ∧
    (clearMapBtnClick deleteOutcome p).1.polyline = none ∧
    getCoordinatesFromInputs (clearMapBtnClick deleteOutcome p).1 = [] ∧
    (clearMapBtnClick deleteOutcome p).2 = [Request.deleteCoordinates] := by
  unfold clearMapBtnClick
  cases awaitResult deleteOutcome "Error al limpiar coordenadas en el backend." <;>
    exact ⟨rfl, rfl, rfl, rfl⟩

/-- C5 (counterexample): the inputs hold `(0,0), (0,0)`, edited since the last
draw, while the stored copy is `(0,0), (0,1)`; after the optimize action the
page holds the stored route, whose total distance exceeds that of the route
held before. -/
theorem optimizeAction_longer_when_out_of_sync :
    ¬ (totalDistance (getCoordinatesFromInputs
          (optimizeAction 1 ⟨[⟨0, 0⟩, ⟨0, 1⟩]⟩
            ⟨[], none, [⟨some 0, some 0⟩, ⟨some 0, some 0⟩], none⟩).1)
        ≤ totalDistance (getCoordinatesFromInputs
          ⟨[], none, [⟨some 0, some 0⟩, ⟨some 0, some 0⟩], none⟩)) := by
  rw [optimizeAction_route]
  have e1 : optimize 1 [⟨0, 0⟩, ⟨0, 1⟩] = [⟨0, 0⟩, ⟨0, 1⟩] := by
    simp [optimize]
  have e2 : getCoordinatesFromInputs
      ⟨[], none, [⟨some 0, some 0⟩, ⟨some 0, some 0⟩], none⟩ = [⟨0, 0⟩, ⟨0, 0⟩] := rfl
  rw [e1, e2]
  simp only [totalDistance, add_zero]
  rw [haversineDistance_self]
  have hb := (haversineDistance_bounds 0 0 0 1).1
  have hne : haversineDistance 0 0 0 1 ≠ 0 := by
    intro h
    rw [haversineDistance_eq_zero_iff_a,
      haversineA_eq_zero_iff 0 0 0 1 (by unfold inDomain; norm_num)
        (by unfold inDomain; norm_num)] at h
    norm_num at h
  intro hle
  exact hne (le_antisymm hle hb)

/-- C5 (amended): when the stored copy equals the route in the inputs, the
route the page holds after the optimize action is no longer than the route
held before it; and the optimizer returns for the crossing square
`(0,0), (10,10), (0,10), (10,0)` a route no longer than the crossed path. -/
theorem optimizeAction_totalDistance_le (passCap : ℕ) (b : Backend) (p : Page)
    (hsync : b.stored = getCoordinatesFromInputs p) :
    totalDistance (getCoordinatesFromInputs (optimizeAction passCap b p).1)
      ≤ totalDistance (getCoordinatesFromInputs p) ∧
    totalDistance (optimize passCap [⟨0, 0⟩, ⟨10, 10⟩, ⟨0, 10⟩, ⟨10, 0⟩])
      ≤ totalDistance [⟨0, 0⟩, ⟨10, 10⟩, ⟨0, 10⟩, ⟨10, 0⟩] := by
  refine ⟨?_, optimize_le passCap _⟩
  rw [optimizeAction_route, hsync]
  exact optimize_le passCap _

theorem optimizeAction_totalDistance_le_witness :
    (⟨[⟨0, 0⟩, ⟨10, 10⟩, ⟨0, 10⟩, ⟨10, 0⟩]⟩ : Backend).stored =
      getCoordinatesFromInputs ⟨[], none, [⟨some 0, some 0⟩, ⟨some 10, some 10⟩,
        ⟨some 0, some 10⟩, ⟨some 10, some 0⟩], none⟩ ∧
    (totalDistance (getCoordinatesFromInputs
        (optimizeAction 5 ⟨[⟨0, 0⟩, ⟨10, 10⟩, ⟨0, 10⟩, ⟨10, 0⟩]⟩
          ⟨[], none, [⟨some 0, some 0⟩, ⟨some 10, some 10⟩,
            ⟨some 0, some 10⟩, ⟨some 10, some 0⟩], none⟩).1)
      ≤ totalDistance (getCoordinatesFromInputs
          ⟨[], none, [⟨some 0, some 0⟩, ⟨some 10, some 10⟩,
            ⟨some 0, some 10⟩, ⟨some 10, some 0⟩], none⟩) ∧
    totalDistance (optimize 5 [⟨0, 0⟩, ⟨10, 10⟩, ⟨0, 10⟩, ⟨10, 0⟩])
      ≤ totalDistance [⟨0, 0⟩, ⟨10, 10⟩, ⟨0, 10⟩, ⟨10, 0⟩]) :=
  ⟨rfl, optimizeAction_totalDistance_le 5 ⟨[⟨0, 0⟩, ⟨10, 10⟩, ⟨0, 10⟩, ⟨10, 0⟩]⟩
    ⟨[], none, [⟨some 0, some 0⟩, ⟨some 10, some 10⟩,
      ⟨some 0, some 10⟩, ⟨some 10, some 0⟩], none⟩ rfl⟩

end SistemaMETIS
